import Mathlib

/-!
Shallow embedding of the persistence layer (`github_db.py`, class `GithubDB`)
and the feed-fetch helper (`app.py`, `fetch_news`) of the Test_news repository.

Modelling conventions:
* A JSON value is the inductive `Json`; a Python `None` is `Json.null`
  (Python's `json` module parses JSON `null` to `None`, so the two coincide).
  JSON numbers are modelled as `Int` (no claim depends on float values).
* The backing blob / local file is `Store := Option Content`; `Content.invalid`
  stands for bytes that do not parse as JSON (truncated or corrupted content).
* External effects (network faults, exceptions, conflicts injected by a
  concurrent writer) are supplied by explicit environment records; `.ok` means
  the call behaves according to the store state, `.err s` means the library
  raised a `GithubException` with that HTTP status, `.exc` any other exception.
* `st.*` UI calls are ignored (pure diagnostics, no data/control effect).
-/

inductive Json where
  | null
  | bool (b : Bool)
  | num (n : Int)
  | str (s : String)
  | arr (elems : List Json)
  | obj (fields : List (String × Json))

/-- Python truthiness of a JSON value (`if default_data:`):
`None`, `False`, `0`, `""`, `[]`, `{}` are falsy. -/
def Json.truthy : Json → Bool
  | .null => false
  | .bool b => b
  | .num n => n != 0
  | .str s => s != ""
  | .arr xs => !xs.isEmpty
  | .obj kvs => !kvs.isEmpty

/-- Python `default_data or {}`. -/
def Json.orElseEmpty (d : Json) : Json :=
  if d.truthy then d else .obj []

/-- Content of the backing blob / local file: parseable JSON or invalid bytes. -/
inductive Content where
  | json (j : Json)
  | invalid

/-- The backing medium: `none` when the blob/file does not exist. -/
abbrev Store := Option Content

/-- Outcome injected for one library call (`get_contents`, `update_file`,
`create_file`, `open`/`json.load`): behave normally, raise a
`GithubException` with a status, or raise some other exception. -/
inductive CallResult where
  | ok
  | err (status : Int)
  | exc

/-- Fault injection for one iteration of the retry loop in
`GithubDB.write_data` (GitHub mode). `updateFile = .err 409` models the
optimistic-locking conflict: the sha fetched at the top of the attempt no
longer matches because a concurrent writer committed in between. -/
structure AttemptEnv where
  getContents : CallResult
  updateFile : CallResult
  createFile : CallResult

/-- API calls issued against the backing repository, recorded as a trace. -/
inductive ApiCall where
  | get
  | update
  | create
deriving DecidableEq

/-- Result of the inner `try` body of one write attempt, after the inner
`except GithubException` handler ran: the Python code returned `b`, a
`GithubException` with `status` escaped to the outer handler, or a
non-GitHub exception escaped. -/
inductive StepRes where
  | ret (b : Bool)
  | ghErr (status : Int)
  | exc

/-- The `create_file` branch of a write attempt (`github_db.py` lines
124-130): reached when `get_contents` or `update_file` raised a 404. -/
def createStep (doc : Json) (a : AttemptEnv) (st : Store) (pre : List ApiCall) :
    StepRes × Store × List ApiCall :=
  match a.createFile with
  | .ok => (.ret true, some (.json doc), pre ++ [.create])
  | .err s => (.ghErr s, st, pre ++ [.create])
  | .exc => (.exc, st, pre ++ [.create])

/-- One iteration of the retry loop of `GithubDB.write_data` (GitHub mode),
`github_db.py` lines 111-132: fetch the current contents (and sha), update
with that sha if the file exists, create the file on a 404; any other
`GithubException` re-raises to the outer handler. -/
def attemptStep (doc : Json) (a : AttemptEnv) (st : Store) :
    StepRes × Store × List ApiCall :=
  match a.getContents with
  | .exc => (.exc, st, [.get])
  | .err s =>
      if s = 404 then createStep doc a st [.get]
      else (.ghErr s, st, [.get])
  | .ok =>
      match st with
      | none => createStep doc a st [.get]
      | some _ =>
          match a.updateFile with
          | .ok => (.ret true, some (.json doc), [.get, .update])
          | .err s =>
              if s = 404 then createStep doc a st [.get, .update]
              else (.ghErr s, st, [.get, .update])
          | .exc => (.exc, st, [.get, .update])

/-- The retry loop `for attempt in range(max_retries)` of
`GithubDB.write_data` (GitHub mode), `github_db.py` lines 110-142, iterating
over the list of attempt indices. A `GithubException` with status 409 retries
while `attempt < max_retries - 1`; every other failure returns `False`;
falling out of the loop returns `False`. -/
def writeRemoteLoop (doc : Json) (env : Nat → AttemptEnv) (maxRetries : Int) :
    List Nat → Store → Bool × Store × List ApiCall
  | [], st => (false, st, [])
  | i :: rest, st =>
      match attemptStep doc (env i) st with
      | (.ret b, st', cs) => (b, st', cs)
      | (.ghErr s, st', cs) =>
          if s = 409 ∧ (i : Int) < maxRetries - 1 then
            let r := writeRemoteLoop doc env maxRetries rest st'
            (r.1, r.2.1, cs ++ r.2.2)
          else (false, st', cs)
      | (.exc, st', cs) => (false, st', cs)

/-- `GithubDB.write_data` in GitHub mode (`github_db.py` lines 97, 109-142).
Returns the boolean result, the new store state and the trace of API calls.
Python's `range(max_retries)` is `List.range maxRetries.toNat` (empty when
`maxRetries ≤ 0`, since `Int.toNat` sends non-positives to 0). -/
def write_data_github (doc : Json) (env : Nat → AttemptEnv) (maxRetries : Int)
    (st : Store) : Bool × Store × List ApiCall :=
  writeRemoteLoop doc env maxRetries (List.range maxRetries.toNat) st

/-- Fault injection for `GithubDB.write_data` in local mode: whether
`open(path, "w")` succeeds, and whether `json.dump` then succeeds. -/
structure LocalWriteEnv where
  openOk : Bool
  dumpOk : Bool

/-- `GithubDB.write_data` in local mode (`github_db.py` lines 100-107).
`open(path, "w")` truncates the file immediately, so a failure of
`json.dump` after a successful open leaves truncated/partial (invalid)
content behind while still returning `False`. -/
def write_data_local (doc : Json) (env : LocalWriteEnv) (st : Store) :
    Bool × Store :=
  if env.openOk then
    if env.dumpOk then (true, some (.json doc))
    else (false, some .invalid)
  else (false, st)

/-- Fault injection for `GithubDB.read_data` in GitHub mode: the outcome of
`get_contents`, plus the environment for the bootstrap `write_data` call the
404 branch may make. -/
structure ReadEnv where
  getContents : CallResult
  writeEnv : Nat → AttemptEnv

/-- The `except GithubException` handler of `GithubDB.read_data` (GitHub
mode), `github_db.py` lines 66-90: on 404, bootstrap from `default_data`
when it is truthy (calling `write_data` with the default `max_retries = 3`);
401, 403 and every other status return `None`. -/
def readGithubErr (d : Json) (env : ReadEnv) (st : Store) (s : Int) :
    Json × Store × Bool :=
  if s = 404 then
    if d.truthy then
      let r := write_data_github d env.writeEnv 3 st
      if r.1 then (d, r.2.1, true) else (d.orElseEmpty, r.2.1, true)
    else (d.orElseEmpty, st, false)
  else (.null, st, false)

/-- `GithubDB.read_data` in GitHub mode (`github_db.py` lines 62-95).
Returns the value Python returns (`Json.null` for `None`), the new store
state, and whether `write_data` was invoked. Parse failures of the fetched
content raise and are caught by the final `except Exception`, returning
`None`. -/
def read_data_github (d : Json) (env : ReadEnv) (st : Store) :
    Json × Store × Bool :=
  match env.getContents with
  | .exc => (.null, st, false)
  | .err s => readGithubErr d env st s
  | .ok =>
      match st with
      | some (.json j) => (j, st, false)
      | some .invalid => (.null, st, false)
      | none => readGithubErr d env st 404

/-- Fault injection for `GithubDB.read_data` in local mode: whether the
`os.path.exists`/`open`/`json.load` sequence runs without an I/O error, plus
the environment for the bootstrap `write_data` call. -/
structure LocalReadEnv where
  loadOk : Bool
  writeEnv : LocalWriteEnv

/-- `GithubDB.read_data` in local mode (`github_db.py` lines 46-60). When the
file is missing and `default_data` is truthy it writes the default (ignoring
the result) and returns the default; when missing and falsy it returns `{}`;
any exception while reading or parsing returns `default_data or {}`. -/
def read_data_local (d : Json) (env : LocalReadEnv) (st : Store) :
    Json × Store × Bool :=
  match st with
  | some c =>
      if env.loadOk then
        match c with
        | .json j => (j, st, false)
        | .invalid => (d.orElseEmpty, st, false)
      else (d.orElseEmpty, st, false)
  | none =>
      if d.truthy then
        let r := write_data_local d env.writeEnv st
        (d, r.2, true)
      else (.obj [], st, false)

/-! ### `fetch_news` (`app.py` lines 50-75) -/

/-- A feed entry as exposed by the RSS parser: `title` and `link` are always
present on the entries the code consumes; `published` and `summary` are
accessed with `entry.get(..., default)`. -/
structure Entry where
  title : String
  link : String
  published : Option String
  summary : Option String

/-- An article record as built by `fetch_news` (`app.py` lines 66-71). -/
structure Article where
  title : String
  link : String
  published : String
  summary : String

/-- Result of `feedparser.parse(url)` for one feed URL: `bozo` (parse error
flag set, feed skipped), an exception during fetching/parsing (feed
skipped), or a parsed feed with its entry list. -/
inductive FeedResult where
  | bozo
  | exc
  | ok (entries : List Entry)

/-- Python's `k in text`: `k` occurs as a contiguous substring of `text`. -/
def strContains (text k : String) : Bool :=
  decide (k.data <:+: text.data)

/-- `text_content = f"{entry.title} {entry.get('summary', '')}"`
(`app.py` line 62). -/
def entryText (e : Entry) : String :=
  e.title ++ " " ++ e.summary.getD ""

/-- The filter condition of `app.py` line 65:
`not keywords or any(k in text_content for k in keywords)`. -/
def keywordMatch (keywords : List String) (text : String) : Bool :=
  keywords.isEmpty || keywords.any (fun k => strContains text k)

/-- The dict appended at `app.py` lines 66-71; `now` stands for
`str(datetime.now())`, the default for a missing `published` field. -/
def entryArticle (now : String) (e : Entry) : Article :=
  { title := e.title
    link := e.link
    published := e.published.getD now
    summary := e.summary.getD "" }

/-- Articles contributed by one feed: none when the feed is bozo or raised;
otherwise the entries passing the keyword filter, in order. -/
def feedArticles (now : String) (keywords : List String) :
    FeedResult → List Article
  | .bozo => []
  | .exc => []
  | .ok entries =>
      entries.filterMap fun e =>
        if keywordMatch keywords (entryText e) then some (entryArticle now e)
        else none

/-- The accumulation loop of `fetch_news` over all feeds (`app.py` lines
52-74), before the final `[:30]` cap. -/
def collectNews (now : String) (feeds : List FeedResult)
    (keywords : List String) : List Article :=
  match feeds with
  | [] => []
  | f :: rest => feedArticles now keywords f ++ collectNews now rest keywords

/-- `fetch_news(feeds, keywords)` (`app.py` lines 50-75): collect matching
articles from every feed, then return only the first 30
(`return articles[:30]`). -/
def fetch_news (now : String) (feeds : List FeedResult)
    (keywords : List String) : List Article :=
  (collectNews now feeds keywords).take 30

/-! ### Helper lemmas -/

/-- `default_data or {}` is never `None`: either `default_data` is truthy
(hence not `None`) or the expression evaluates to `{}`. -/
theorem orElseEmpty_ne_null (d : Json) : d.orElseEmpty ≠ Json.null := by
  unfold Json.orElseEmpty
  split
  · next h =>
    intro hn
    subst hn
    simp [Json.truthy] at h
  · exact fun h => Json.noConfusion h

theorem truthy_orElseEmpty_eq (d : Json) (h : d.truthy = true) :
    d.orElseEmpty = d := by
  simp [Json.orElseEmpty, h]

theorem falsy_orElseEmpty_eq (d : Json) (h : d.truthy = false) :
    d.orElseEmpty = Json.obj [] := by
  simp [Json.orElseEmpty, h]

/-- The store after one write attempt: the serialized document when the
attempt returned, untouched otherwise (failed calls never mutate the blob). -/
theorem attemptStep_state (doc : Json) (a : AttemptEnv) (st : Store) :
    (attemptStep doc a st).2.1 =
      (match (attemptStep doc a st).1 with
        | .ret _ => some (.json doc)
        | _ => st) := by
  unfold attemptStep createStep
  cases a.getContents <;> cases st <;> cases a.updateFile <;>
    cases a.createFile <;> simp <;> split_ifs <;> simp

/-- A write attempt only ever returns `True` from inside the loop body
(`return True` at `github_db.py` lines 122 and 130). -/
theorem attemptStep_ret_true (doc : Json) (a : AttemptEnv) (st : Store)
    (b : Bool) (h : (attemptStep doc a st).1 = .ret b) : b = true := by
  unfold attemptStep createStep at h
  cases ha : a.getContents <;> rw [ha] at h <;> try rfl
  all_goals
    revert h
    cases st <;> cases a.updateFile <;> cases a.createFile <;>
      simp <;> split_ifs <;> simp

/-- Every write attempt issues `get_contents` exactly once: the version
token is re-fetched before each conditional update. -/
theorem attemptStep_getCount (doc : Json) (a : AttemptEnv) (st : Store) :
    (attemptStep doc a st).2.2.count ApiCall.get = 1 := by
  unfold attemptStep createStep
  cases a.getContents <;> cases st <;> cases a.updateFile <;>
    cases a.createFile <;> simp <;> split <;> simp [List.count_cons]

/-- A write that returns `True` leaves the store holding exactly the
document that was written. -/
theorem writeRemoteLoop_true_state (doc : Json) (env : Nat → AttemptEnv)
    (m : Int) :
    ∀ (l : List Nat) (st st' : Store) (tr : List ApiCall),
      writeRemoteLoop doc env m l st = (true, st', tr) →
      st' = some (.json doc) := by
  intro l
  induction l with
  | nil =>
      intro st st' tr h
      simp [writeRemoteLoop] at h
  | cons i rest ih =>
      intro st st' tr h
      have hst := attemptStep_state doc (env i) st
      rcases h0 : attemptStep doc (env i) st with ⟨res, st2, cs⟩
      rw [h0] at hst
      simp only [writeRemoteLoop, h0] at h
      cases res with
      | ret b =>
          simp only [Prod.mk.injEq] at h
          rw [← h.2.1]
          exact hst
      | ghErr s =>
          dsimp only at h
          by_cases hc : s = 409 ∧ (i : Int) < m - 1
          · rw [if_pos hc] at h
            simp only [Prod.mk.injEq] at h
            rcases h with ⟨h1, h2, h3⟩
            have hr : writeRemoteLoop doc env m rest st2 =
                (true, (writeRemoteLoop doc env m rest st2).2.1,
                  (writeRemoteLoop doc env m rest st2).2.2) := by
              rw [← h1]
            rw [← h2]
            exact ih st2 _ _ hr
          · rw [if_neg hc] at h
            simp at h
      | exc => simp at h

/-- A write that returns `False` leaves the store exactly as it was
(conflicted and failed attempts never mutate the blob). -/
theorem writeRemoteLoop_false_state (doc : Json) (env : Nat → AttemptEnv)
    (m : Int) :
    ∀ (l : List Nat) (st st' : Store) (tr : List ApiCall),
      writeRemoteLoop doc env m l st = (false, st', tr) →
      st' = st := by
  intro l
  induction l with
  | nil =>
      intro st st' tr h
      simp only [writeRemoteLoop, Prod.mk.injEq] at h
      exact h.2.1.symm
  | cons i rest ih =>
      intro st st' tr h
      have hst := attemptStep_state doc (env i) st
      rcases h0 : attemptStep doc (env i) st with ⟨res, st2, cs⟩
      rw [h0] at hst
      simp only [writeRemoteLoop, h0] at h
      cases res with
      | ret b =>
          have hb : b = true := attemptStep_ret_true doc (env i) st b (by rw [h0])
          subst hb
          simp at h
      | ghErr s =>
          dsimp only at h
          by_cases hc : s = 409 ∧ (i : Int) < m - 1
          · rw [if_pos hc] at h
            simp only [Prod.mk.injEq] at h
            have : writeRemoteLoop doc env m rest st2 =
                (false, (writeRemoteLoop doc env m rest st2).2.1,
                  (writeRemoteLoop doc env m rest st2).2.2) := by
              rw [← h.1]
            have h2 := ih st2 _ _ this
            rw [← h.2.1, h2]
            exact hst
          · rw [if_neg hc] at h
            simp only [Prod.mk.injEq] at h
            rw [← h.2.1]
            exact hst
      | exc =>
          dsimp only at h
          simp only [Prod.mk.injEq] at h
          rw [← h.2.1]
          exact hst

/-- At most one `get_contents` call per loop iteration: the number of
fetches is bounded by the number of attempts. -/
theorem writeRemoteLoop_getCount (doc : Json) (env : Nat → AttemptEnv)
    (m : Int) :
    ∀ (l : List Nat) (st : Store),
      (writeRemoteLoop doc env m l st).2.2.count ApiCall.get ≤ l.length := by
  intro l
  induction l with
  | nil =>
      intro st
      simp [writeRemoteLoop]
  | cons i rest ih =>
      intro st
      have hg := attemptStep_getCount doc (env i) st
      rcases h0 : attemptStep doc (env i) st with ⟨res, st2, cs⟩
      rw [h0] at hg
      simp only at hg
      simp only [writeRemoteLoop, h0]
      cases res with
      | ret b =>
          dsimp only
          simp only [List.length_cons]
          omega
      | ghErr s =>
          dsimp only
          by_cases hc : s = 409 ∧ (i : Int) < m - 1
          · rw [if_pos hc]
            simp only [List.count_append, List.length_cons]
            have := ih st2
            omega
          · rw [if_neg hc]
            simp only [List.length_cons]
            omega
      | exc =>
          dsimp only
          simp only [List.length_cons]
          omega

/-! ### Claim C8 -/

/-- C8: in GitHub mode, `write_data` with `max_retries ≤ 0` returns `False`
without issuing any `get_contents`/`update_file`/`create_file` call and
without touching the store: `range(max_retries)` is empty, so the loop body
never runs and the trailing `return False` is reached directly. -/
theorem write_data_github_nonpositive_retries (doc : Json)
    (env : Nat → AttemptEnv) (m : Int) (st : Store) (h : m ≤ 0) :
    write_data_github doc env m st = (false, st, []) := by
  unfold write_data_github
  rw [Int.toNat_of_nonpos h]
  rfl

/-- Witness for C8 at `max_retries = -1`. -/
theorem write_data_github_nonpositive_retries_witness :
    write_data_github (Json.obj []) (fun _ => ⟨.ok, .ok, .ok⟩) (-1)
      (some (Content.json Json.null)) =
      (false, some (Content.json Json.null), []) :=
  write_data_github_nonpositive_retries _ _ _ _ (by decide)

/-! ### Claim C6 -/

/-- C6: in GitHub mode, a 401 (authentication) or 403 (authorization)
failure of `get_contents` makes `read_data` return `None` through the
`except` handler (no exception escapes), with no write attempted and the
store untouched. -/
theorem read_auth_error_returns_null (d : Json) (renv : ReadEnv) (st : Store)
    (s : Int) (hg : renv.getContents = .err s) (hs : s = 401 ∨ s = 403) :
    read_data_github d renv st = (.null, st, false) := by
  have h404 : ¬(s = (404 : Int)) := by rcases hs with h | h <;> omega
  simp [read_data_github, hg, readGithubErr, h404]

/-- Witness for C6 at status 401. -/
theorem read_auth_error_returns_null_witness :
    read_data_github (Json.obj [("feeds", Json.arr [])])
      ⟨.err 401, fun _ => ⟨.ok, .ok, .ok⟩⟩ (some (Content.json (Json.num 5))) =
      (Json.null, some (Content.json (Json.num 5)), false) :=
  read_auth_error_returns_null _ _ _ 401 rfl (Or.inl rfl)

/-! ### Claim C10 -/

/-- C10: a falsy default (for example `{}`) passed to `read_data` on an
absent blob/file behaves like no default on both backends: `if default_data:`
rejects it, no bootstrap write happens, and `{}` is returned. -/
theorem read_falsy_default_no_bootstrap (d : Json) (lenv : LocalReadEnv)
    (renv : ReadEnv) (hd : d.truthy = false) (hg : renv.getContents = .ok) :
    read_data_local d lenv none = (Json.obj [], none, false) ∧
    read_data_github d renv none = (Json.obj [], none, false) := by
  constructor
  · simp [read_data_local, hd]
  · simp [read_data_github, hg, readGithubErr, hd, Json.orElseEmpty]

/-- Witness for C10 with the falsy default `{}`. -/
theorem read_falsy_default_no_bootstrap_witness :
    read_data_local (Json.obj []) ⟨true, ⟨true, true⟩⟩ none =
      (Json.obj [], none, false) ∧
    read_data_github (Json.obj []) ⟨.ok, fun _ => ⟨.ok, .ok, .ok⟩⟩ none =
      (Json.obj [], none, false) :=
  read_falsy_default_no_bootstrap _ _ _ rfl rfl

/-! ### Claim C3 -/

/-- C3 counterexample: in GitHub mode with an absent blob and no default,
`read_data` returns `{}` (`default_data or {}` with `default_data = None`),
not `None` as the claim states. -/
theorem read_missing_no_default_cex :
    (read_data_github Json.null ⟨.ok, fun _ => ⟨.ok, .ok, .ok⟩⟩ none).1 =
      Json.obj [] ∧ Json.obj [] ≠ Json.null :=
  ⟨rfl, fun h => Json.noConfusion h⟩

/-- C3 amended: when the backing blob/file is absent and no default is
provided, `read_data` returns the empty document `{}` on BOTH backends (the
remote 404 path ends at `return default_data or {}`, which is `{}`); the
remote bootstrap path never yields `None`. -/
theorem read_missing_no_default_empty (lenv : LocalReadEnv) (renv : ReadEnv)
    (hg : renv.getContents = .ok) :
    read_data_local Json.null lenv none = (Json.obj [], none, false) ∧
    read_data_github Json.null renv none = (Json.obj [], none, false) := by
  constructor
  · simp [read_data_local, Json.truthy]
  · simp [read_data_github, hg, readGithubErr, Json.truthy, Json.orElseEmpty]

/-- Witness for the amended C3. -/
theorem read_missing_no_default_empty_witness :
    read_data_local Json.null ⟨true, ⟨true, true⟩⟩ none =
      (Json.obj [], none, false) ∧
    read_data_github Json.null ⟨.ok, fun _ => ⟨.err 409, .err 500, .exc⟩⟩ none =
      (Json.obj [], none, false) :=
  read_missing_no_default_empty _ _ rfl

/-! ### Claim C4 -/

/-- C4 counterexample: in local mode, a parse failure on an existing file
returns `default_data or {}` — here the empty document `{}`, not `None` as
the claim states for "either backend". -/
theorem read_local_parse_failure_cex :
    read_data_local Json.null ⟨true, ⟨true, true⟩⟩ (some Content.invalid) =
      (Json.obj [], some Content.invalid, false) ∧ Json.obj [] ≠ Json.null :=
  ⟨rfl, fun h => Json.noConfusion h⟩

/-- C4 amended: on the REMOTE backend, a parse failure or a transport
failure (non-GitHub exception, or a `GithubException` other than 404) on an
existing blob makes `read_data` return `None`; on the LOCAL backend a read
or parse failure instead returns `default_data or {}`. -/
theorem read_parse_transport_failure (d : Json) (renv : ReadEnv)
    (c : Content) (lenv : LocalReadEnv) :
    (renv.getContents = .exc →
      read_data_github d renv (some c) = (.null, some c, false)) ∧
    (∀ s : Int, renv.getContents = .err s → s ≠ 404 →
      read_data_github d renv (some c) = (.null, some c, false)) ∧
    (renv.getContents = .ok →
      read_data_github d renv (some .invalid) =
        (.null, some .invalid, false)) ∧
    (read_data_local d lenv (some .invalid) =
      (d.orElseEmpty, some .invalid, false)) := by
  refine ⟨?_, ?_, ?_, ?_⟩
  · intro h
    simp [read_data_github, h]
  · intro s h hs
    simp [read_data_github, h, readGithubErr, hs]
  · intro h
    simp [read_data_github, h]
  · unfold read_data_local
    by_cases hl : lenv.loadOk <;> simp [hl]

/-- Witness for the amended C4 at a 500 transport error. -/
theorem read_parse_transport_failure_witness :
    read_data_github (Json.num 7) ⟨.err 500, fun _ => ⟨.ok, .ok, .ok⟩⟩
      (some (Content.json (Json.num 1))) =
      (Json.null, some (Content.json (Json.num 1)), false) :=
  (read_parse_transport_failure (Json.num 7) _ _ ⟨true, ⟨true, true⟩⟩).2.1
    500 rfl (by decide)

/-! ### Claim C9 -/

/-- C9 counterexample: in local mode, reading an existing file whose content
is the JSON document `null` returns `None` (Python parses JSON `null` to
`None`), so `read_data` CAN return null in local mode. -/
theorem read_local_null_cex :
    read_data_local Json.null ⟨true, ⟨true, true⟩⟩
      (some (Content.json Json.null)) =
      (Json.null, some (Content.json Json.null), false) := rfl

/-- C9 amended: in local mode `read_data` returns `None` exactly when the
file exists, is readable, and its content parses to JSON `null`; otherwise a
missing file with no (truthy) default yields `{}`, a missing file with a
truthy default yields the default, and a read error yields
`default_data or {}`. -/
theorem read_data_local_null_only_from_content (d : Json)
    (lenv : LocalReadEnv) (st : Store) :
    ((read_data_local d lenv st).1 = Json.null ↔
      (st = some (Content.json Json.null) ∧ lenv.loadOk = true)) ∧
    (d.truthy = false → read_data_local d lenv none = (Json.obj [], none, false)) ∧
    (d.truthy = true → (read_data_local d lenv none).1 = d) ∧
    (∀ c, lenv.loadOk = false →
      read_data_local d lenv (some c) = (d.orElseEmpty, some c, false)) := by
  refine ⟨?_, ?_, ?_, ?_⟩
  · cases st with
    | none =>
        by_cases hd : d.truthy <;> simp [read_data_local, hd]
        intro h
        subst h
        simp [Json.truthy] at hd
    | some c =>
        by_cases hl : lenv.loadOk
        · cases c with
          | json j => simp [read_data_local, hl]
          | invalid =>
              simp [read_data_local, hl]
              exact orElseEmpty_ne_null d
        · simp [read_data_local, hl]
          exact orElseEmpty_ne_null d
  · intro hd
    simp [read_data_local, hd]
  · intro hd
    simp [read_data_local, hd]
  · intro c hl
    cases c <;> simp [read_data_local, hl]

/-- Witness for the amended C9: a file holding JSON `null` reads as `None`;
a missing file with default `2` reads as `2`. -/
theorem read_data_local_null_only_witness :
    (read_data_local (Json.num 2) ⟨true, ⟨true, true⟩⟩
        (some (Content.json Json.null))).1 = Json.null ∧
    (read_data_local (Json.num 2) ⟨true, ⟨true, true⟩⟩ none).1 = Json.num 2 :=
  ⟨(read_data_local_null_only_from_content (Json.num 2) ⟨true, ⟨true, true⟩⟩
      (some (Content.json Json.null))).1.mpr ⟨rfl, rfl⟩,
    (read_data_local_null_only_from_content (Json.num 2) ⟨true, ⟨true, true⟩⟩
      none).2.2.1 rfl⟩

/-! ### Claim C2 -/

/-- C2: round-trip. A `write_data` call that returned `True` leaves the
store holding exactly the serialized document, so a subsequent `read_data`
with a fault-free fetch (and no intervening writer: the state passed to the
read is the state the write produced) returns a document deeply equal to
the one written, on both backends. -/
theorem write_read_roundtrip (doc : Json) (env : Nat → AttemptEnv) (m : Int)
    (st st' : Store) (tr : List ApiCall) (renv : ReadEnv)
    (lenv : LocalWriteEnv) (lrenv : LocalReadEnv) :
    (write_data_github doc env m st = (true, st', tr) →
      renv.getContents = .ok →
      read_data_github Json.null renv st' = (doc, st', false)) ∧
    (∀ st2, write_data_local doc lenv st = (true, st2) →
      lrenv.loadOk = true →
      read_data_local Json.null lrenv st2 = (doc, st2, false)) := by
  constructor
  · intro hw hg
    have hst : st' = some (.json doc) :=
      writeRemoteLoop_true_state doc env m _ st st' tr hw
    subst hst
    simp [read_data_github, hg]
  · intro st2 hw hl
    have hst : st2 = some (.json doc) := by
      unfold write_data_local at hw
      by_cases ho : lenv.openOk
      · by_cases hd : lenv.dumpOk
        · rw [if_pos ho, if_pos hd] at hw
          simp only [Prod.mk.injEq] at hw
          exact hw.2.symm
        · rw [if_pos ho, if_neg hd] at hw
          simp at hw
      · rw [if_neg ho] at hw
        simp at hw
    subst hst
    simp [read_data_local, hl]

/-- Witness for C2: write `9` into an empty remote store (the create path),
then read it back. -/
theorem write_read_roundtrip_witness :
    write_data_github (Json.num 9) (fun _ => ⟨.ok, .ok, .ok⟩) 3 none =
      (true, some (Content.json (Json.num 9)), [ApiCall.get, ApiCall.create]) ∧
    read_data_github Json.null ⟨.ok, fun _ => ⟨.ok, .ok, .ok⟩⟩
      (some (Content.json (Json.num 9))) =
      (Json.num 9, some (Content.json (Json.num 9)), false) :=
  ⟨rfl,
    (write_read_roundtrip (Json.num 9) (fun _ => ⟨.ok, .ok, .ok⟩) 3 none
      (some (Content.json (Json.num 9))) [ApiCall.get, ApiCall.create]
      ⟨.ok, fun _ => ⟨.ok, .ok, .ok⟩⟩ ⟨true, true⟩ ⟨true, ⟨true, true⟩⟩).1
      rfl rfl⟩

/-! ### Claim C5 -/

/-- C5 counterexample: in local mode, `open(path, "w")` truncates first; if
`json.dump` then fails the call returns `False` but the file is left with
truncated/partial (invalid) content — the persisted state changed. -/
theorem write_local_failed_write_cex :
    (write_data_local (Json.obj []) ⟨true, false⟩
        (some (Content.json (Json.num 1)))).1 = false ∧
    (write_data_local (Json.obj []) ⟨true, false⟩
        (some (Content.json (Json.num 1)))).2 ≠
      some (Content.json (Json.num 1)) := by
  refine ⟨rfl, fun h => ?_⟩
  have h' : some Content.invalid = some (Content.json (Json.num 1)) := h
  injection h' with h2
  exact Content.noConfusion h2

/-- C5 amended: a remote `write_data` that returns `False` leaves the blob
unchanged (failed or conflicted API calls never mutate it); a local
`write_data` that fails before opening the file leaves it unchanged, but a
failure after the truncating open leaves either the old state or invalid
(truncated/partial) content. -/
theorem failed_write_state (doc : Json) (env : Nat → AttemptEnv) (m : Int)
    (st st' : Store) (tr : List ApiCall) (lenv : LocalWriteEnv) :
    (write_data_github doc env m st = (false, st', tr) → st' = st) ∧
    (lenv.openOk = false → (write_data_local doc lenv st).2 = st) ∧
    (∀ st2, write_data_local doc lenv st = (false, st2) →
      st2 = st ∨ st2 = some Content.invalid) := by
  refine ⟨?_, ?_, ?_⟩
  · exact fun h => writeRemoteLoop_false_state doc env m _ st st' tr h
  · intro h
    simp [write_data_local, h]
  · intro st2 h
    unfold write_data_local at h
    by_cases ho : lenv.openOk
    · by_cases hd : lenv.dumpOk
      · rw [if_pos ho, if_pos hd] at h
        simp at h
      · rw [if_pos ho, if_neg hd] at h
        simp only [Prod.mk.injEq] at h
        exact Or.inr h.2.symm
    · rw [if_neg ho] at h
      simp only [Prod.mk.injEq] at h
      exact Or.inl h.2.symm

/-- Witness for the amended C5: a remote write failing with a 500 on the
fetch leaves the blob unchanged; a local write failing at `open` leaves the
file unchanged. -/
theorem failed_write_state_witness :
    (some (Content.json (Json.num 1)) : Store) =
      some (Content.json (Json.num 1)) ∧
    (write_data_local (Json.num 3) ⟨false, true⟩
        (some (Content.json (Json.num 1)))).2 =
      some (Content.json (Json.num 1)) :=
  ⟨(failed_write_state (Json.num 3) (fun _ => ⟨.err 500, .ok, .ok⟩) 3
      (some (Content.json (Json.num 1))) (some (Content.json (Json.num 1)))
      [ApiCall.get] ⟨false, true⟩).1 rfl,
    (failed_write_state (Json.num 3) (fun _ => ⟨.err 500, .ok, .ok⟩) 3
      (some (Content.json (Json.num 1))) (some (Content.json (Json.num 1)))
      [ApiCall.get] ⟨false, true⟩).2.1 rfl⟩

/-! ### Claim C1 -/

/-- Environment of an attempt whose conditional update is rejected with the
Conflict status 409 (the version token fetched at the top of the attempt is
stale). -/
def conflictEnv (a : AttemptEnv) : Prop :=
  a.getContents = .ok ∧ a.updateFile = .err 409

/-- Environment of an attempt that fails for a non-conflict reason while
the blob exists: a non-404/non-409 `GithubException` (auth 401, permission
403, server error) from the fetch or the update, or a non-GitHub exception
(network, serialization). -/
def hardFailEnv (a : AttemptEnv) : Prop :=
  a.getContents = .exc ∨
  (∃ s : Int, a.getContents = .err s ∧ s ≠ 404 ∧ s ≠ 409) ∨
  (a.getContents = .ok ∧ (a.updateFile = .exc ∨
    ∃ s : Int, a.updateFile = .err s ∧ s ≠ 404 ∧ s ≠ 409))

/-- API trace of `n` conflicted attempts: each one re-fetches the version
token (`get_contents`) and then has its conditional update rejected. -/
def conflictTrace (n : Nat) : List ApiCall :=
  (List.replicate n [ApiCall.get, ApiCall.update]).flatten

theorem conflictTrace_succ (n : Nat) :
    conflictTrace (n + 1) =
      conflictTrace n ++ [ApiCall.get, ApiCall.update] := by
  simp [conflictTrace, List.replicate_succ', List.flatten_append]

theorem conflictTrace_cons (n : Nat) :
    conflictTrace (n + 1) =
      [ApiCall.get, ApiCall.update] ++ conflictTrace n := by
  simp [conflictTrace, List.replicate_succ]

/-- A conflicted attempt on an existing blob: fetch succeeds, the update is
rejected with 409, the store is untouched. -/
theorem conflict_attemptStep (doc : Json) (a : AttemptEnv) (c : Content)
    (h : conflictEnv a) :
    attemptStep doc a (some c) =
      (.ghErr 409, some c, [ApiCall.get, ApiCall.update]) := by
  simp [attemptStep, h.1, h.2]

/-- Running the retry loop through `k` consecutive conflicted attempts
(whose indices are all below `maxRetries - 1`) re-fetches and retries each
time, accumulating `k` fetch-update pairs, and continues with the remaining
attempt indices from the same store state. -/
theorem conflict_skip (doc : Json) (env : Nat → AttemptEnv) (m : Int)
    (c : Content) :
    ∀ (k a : Nat) (l : List Nat),
      (∀ j, j < a + k → conflictEnv (env j)) →
      ((a : Int) + k < m) →
      writeRemoteLoop doc env m (List.range' a k ++ l) (some c) =
        ((writeRemoteLoop doc env m l (some c)).1,
          (writeRemoteLoop doc env m l (some c)).2.1,
          conflictTrace k ++ (writeRemoteLoop doc env m l (some c)).2.2) := by
  intro k
  induction k with
  | zero =>
      intro a l _ _
      simp [conflictTrace]
  | succ n ih =>
      intro a l hconf hm
      rw [List.range'_succ, List.cons_append]
      have ha : conflictEnv (env a) := hconf a (by omega)
      rw [writeRemoteLoop]
      rw [conflict_attemptStep doc (env a) c ha]
      dsimp only
      have hlt : (a : Int) < m - 1 := by push_cast at hm ⊢; omega
      rw [if_pos ⟨rfl, hlt⟩]
      rw [ih (a + 1) l (fun j hj => hconf j (by omega)) (by push_cast at hm ⊢; omega)]
      rw [conflictTrace_cons]
      simp [List.append_assoc]

/-- If every attempt is conflicted, the loop exhausts all
`max_retries.toNat` attempts (the last one falls into the non-retry branch
of `attempt < max_retries - 1`), returns `False`, leaves the blob
untouched, and has re-fetched the token before every one of its attempts. -/
theorem conflict_exhaust (doc : Json) (env : Nat → AttemptEnv) (m : Int)
    (c : Content) (hconf : ∀ i, conflictEnv (env i)) :
    write_data_github doc env m (some c) =
      (false, some c, conflictTrace m.toNat) := by
  unfold write_data_github
  by_cases hm : m ≤ 0
  · rw [Int.toNat_of_nonpos hm]
    simp [writeRemoteLoop, conflictTrace]
  · push_neg at hm
    have hmn : ((m.toNat : Int)) = m := Int.toNat_of_nonneg (le_of_lt hm)
    obtain ⟨n, hn⟩ : ∃ n, m.toNat = n + 1 := ⟨m.toNat - 1, by omega⟩
    rw [hn, List.range_succ, List.range_eq_range']
    rw [conflict_skip doc env m c n 0 [n] (fun j _ => hconf j) (by omega)]
    rw [writeRemoteLoop]
    rw [conflict_attemptStep doc (env n) c (hconf n)]
    dsimp only
    have hnlt : ¬((n : Int) < m - 1) := by omega
    rw [if_neg (fun hand => hnlt hand.2)]
    rw [conflictTrace_succ]

/-- A non-conflict failing attempt at the head of the loop returns `False`
at once: no retry, no store change, exactly one token fetch in its trace. -/
theorem hardFail_loop (doc : Json) (env : Nat → AttemptEnv) (m : Int)
    (c : Content) (i : Nat) (l : List Nat) (h : hardFailEnv (env i)) :
    ∃ cs, writeRemoteLoop doc env m (i :: l) (some c) = (false, some c, cs) ∧
      cs.count ApiCall.get = 1 := by
  rcases h with hg | ⟨s, hs, h404, h409⟩ | ⟨hok, hexc | ⟨s, hs, h404, h409⟩⟩
  · exact ⟨[ApiCall.get], by simp [writeRemoteLoop, attemptStep, hg], rfl⟩
  · refine ⟨[ApiCall.get], ?_, rfl⟩
    rw [writeRemoteLoop]
    simp [attemptStep, hs, h404, h409]
  · exact ⟨[ApiCall.get, ApiCall.update],
      by simp [writeRemoteLoop, attemptStep, hok, hexc], rfl⟩
  · refine ⟨[ApiCall.get, ApiCall.update], ?_, rfl⟩
    rw [writeRemoteLoop]
    simp [attemptStep, hok, hs, h404, h409]

/-- C1: the retry policy of the remote `write_data`. (i) The trace never has
more than `maxRetries` token fetches (one per attempt). (ii) If every
attempt hits a Conflict (status 409), all `maxRetries` attempts run — each
re-fetching the token before its conditional update, as the
fetch-update-pair trace shows — and the call returns `False` with the blob
untouched. (iii) Any non-conflict failure (auth, permission, network,
serialization), arising after any number of conflicted attempts, stops the
loop at once: `False` is returned, the blob is untouched, and the failing
attempt contributed exactly one further fetch. -/
theorem write_data_github_retry_policy (doc : Json) (env : Nat → AttemptEnv)
    (m : Int) (c : Content) :
    ((write_data_github doc env m (some c)).2.2.count ApiCall.get ≤ m.toNat) ∧
    ((∀ i, conflictEnv (env i)) →
      write_data_github doc env m (some c) =
        (false, some c, conflictTrace m.toNat)) ∧
    (∀ i : Nat, (i : Int) < m →
      (∀ j, j < i → conflictEnv (env j)) → hardFailEnv (env i) →
      ∃ cs, write_data_github doc env m (some c) =
          (false, some c, conflictTrace i ++ cs) ∧
        cs.count ApiCall.get = 1) := by
  refine ⟨?_, conflict_exhaust doc env m c, ?_⟩
  · have h := writeRemoteLoop_getCount doc env m (List.range m.toNat) (some c)
    simpa [write_data_github] using h
  · intro i hi hconf hhard
    have h0i : (0 : Int) ≤ i := Int.ofNat_nonneg i
    have hilt : i < m.toNat := by omega
    obtain ⟨cs, hcs, hc1⟩ :=
      hardFail_loop doc env m c i (List.range' (i + 1) (m.toNat - i - 1)) hhard
    refine ⟨cs, ?_, hc1⟩
    unfold write_data_github
    have hsplit : List.range' 0 i ++ List.range' i (m.toNat - i) =
        List.range' 0 m.toNat := by
      have h2 := List.range'_append 0 i (m.toNat - i) 1
      simp only [Nat.one_mul, Nat.zero_add] at h2
      rw [h2]
      congr 1
      omega
    rw [List.range_eq_range', ← hsplit]
    have htail : List.range' i (m.toNat - i) =
        i :: List.range' (i + 1) (m.toNat - i - 1) := by
      obtain ⟨t, ht⟩ : ∃ t, m.toNat - i = t + 1 := ⟨m.toNat - i - 1, by omega⟩
      rw [ht, List.range'_succ]
      rfl
    rw [htail]
    rw [conflict_skip doc env m c i 0 _ (fun j hj => hconf j (by omega)) (by omega)]
    rw [hcs]

/-- Witness for C1: three all-conflict attempts exhaust `max_retries = 3`
and return `False`; an immediate network exception returns `False` after a
single attempt. -/
theorem write_data_github_retry_policy_witness :
    write_data_github (Json.num 1) (fun _ => ⟨.ok, .err 409, .ok⟩) 3
      (some (Content.json (Json.num 0))) =
      (false, some (Content.json (Json.num 0)), conflictTrace 3) ∧
    (∃ cs, write_data_github (Json.num 1) (fun _ => ⟨.exc, .ok, .ok⟩) 3
        (some (Content.json (Json.num 0))) =
        (false, some (Content.json (Json.num 0)), conflictTrace 0 ++ cs) ∧
      cs.count ApiCall.get = 1) :=
  ⟨(write_data_github_retry_policy (Json.num 1)
      (fun _ => ⟨.ok, .err 409, .ok⟩) 3 (Content.json (Json.num 0))).2.1
      (fun _ => ⟨rfl, rfl⟩),
    (write_data_github_retry_policy (Json.num 1)
      (fun _ => ⟨.exc, .ok, .ok⟩) 3 (Content.json (Json.num 0))).2.2 0
      (by decide) (fun j hj => absurd hj (Nat.not_lt_zero j)) (Or.inl rfl)⟩

/-! ### Claim C7 -/

theorem keywordMatch_iff (kws : List String) (t : String) :
    keywordMatch kws t = true ↔
      kws = [] ∨ ∃ k ∈ kws, strContains t k = true := by
  simp [keywordMatch, List.isEmpty_iff, List.any_eq_true]

/-- C7: `fetch_news` returns at most 30 articles, and before the
`articles[:30]` cap an article is collected exactly when it comes from an
entry of a successfully parsed feed whose title-plus-summary text contains
at least one keyword — or the keyword list is empty, which accepts every
entry. -/
theorem fetch_news_spec (now : String) (feeds : List FeedResult)
    (kws : List String) :
    (fetch_news now feeds kws).length ≤ 30 ∧
    (∀ a : Article, a ∈ collectNews now feeds kws ↔
      ∃ entries, FeedResult.ok entries ∈ feeds ∧ ∃ e ∈ entries,
        (kws = [] ∨ ∃ k ∈ kws, strContains (entryText e) k = true) ∧
        entryArticle now e = a) := by
  constructor
  · simp only [fetch_news, List.length_take]
    omega
  · intro a
    induction feeds with
    | nil => simp [collectNews]
    | cons f rest ih =>
        simp only [collectNews, List.mem_append, ih, List.mem_cons]
        cases f with
        | bozo =>
            simp only [feedArticles, List.not_mem_nil, false_or]
            constructor
            · rintro ⟨es, hes, rest⟩
              exact ⟨es, Or.inr hes, rest⟩
            · rintro ⟨es, hes | hes, rest⟩
              · exact absurd hes (by simp)
              · exact ⟨es, hes, rest⟩
        | exc =>
            simp only [feedArticles, List.not_mem_nil, false_or]
            constructor
            · rintro ⟨es, hes, rest⟩
              exact ⟨es, Or.inr hes, rest⟩
            · rintro ⟨es, hes | hes, rest⟩
              · exact absurd hes (by simp)
              · exact ⟨es, hes, rest⟩
        | ok es =>
            simp only [feedArticles, List.mem_filterMap,
              Option.ite_none_right_eq_some, Option.some.injEq,
              keywordMatch_iff]
            constructor
            · rintro (⟨e, he, hm, ha⟩ | ⟨es2, hes2, he⟩)
              · exact ⟨es, Or.inl rfl, e, he, hm, ha⟩
              · exact ⟨es2, Or.inr hes2, he⟩
            · rintro ⟨es2, hes2 | hes2, e, he, hm, ha⟩
              · cases FeedResult.ok.inj hes2
                exact Or.inl ⟨e, he, hm, ha⟩
              · exact Or.inr ⟨es2, hes2, e, he, hm, ha⟩

/-- Witness for C7: a single-entry feed whose title contains the keyword
contributes its article, and the result respects the cap. -/
theorem fetch_news_spec_witness :
    (fetch_news "t" [FeedResult.ok [⟨"Samsung rises", "l", none, none⟩]]
        ["Sam"]).length ≤ 30 ∧
    (⟨"Samsung rises", "l", "t", ""⟩ : Article) ∈
      collectNews "t" [FeedResult.ok [⟨"Samsung rises", "l", none, none⟩]]
        ["Sam"] :=
  ⟨(fetch_news_spec "t" [FeedResult.ok [⟨"Samsung rises", "l", none, none⟩]]
      ["Sam"]).1,
    ((fetch_news_spec "t" [FeedResult.ok [⟨"Samsung rises", "l", none, none⟩]]
      ["Sam"]).2 _).mpr
      ⟨[⟨"Samsung rises", "l", none, none⟩], by simp,
        ⟨"Samsung rises", "l", none, none⟩, by simp,
        Or.inr ⟨"Sam", by simp, by decide⟩, rfl⟩⟩
